import Mathlib

/-!
Verification of `packages/composables/src/factories/useUserFactory.ts`.

The factory produces a hook whose shared reactive state is the triple
(user, loading, error map).  Each wrapped operation is an async function
that mutates this state, calls the injected implementation, and logs.
We embed every wrapped operation as a function from the injected
implementation's behaviour and the starting state to
`Except E (final state, event trace)`: the `Except` layer records whether
the wrapped promise itself resolves (`Except.ok`) or rejects
(`Except.error`); a thrown error inside the `try` block is routed to the
`catch` translation, and since every `catch` in the source absorbs the
error, every branch below ends in `Except.ok`.

The event trace records, in statement order, the Logger calls and the
writes to the `loading` ref, so that "never sets loading to true" and
"what the entry debug log receives" are statable.  Payloads of the entry
debug logs other than `changePassword`'s masked object are abstracted
away (they go to the external Logger collaborator and no property here
depends on them); `changePassword`'s entry payload is kept in full
because it is the subject of a claim.

Type parameters, matching the TypeScript generics:
`U` = USER, `P` = UPDATE_USER_PARAMS, `R` = REGISTER_USER_PARAMS,
`Q` = the custom-query payload type, `E` = the thrown-error type,
`M` = the output type of the external `mask` function.
The `user` ref is initialised to `null` and `logout` writes `null` into
it, so its value is modelled as `Option U`.
-/

namespace UseUserFactory

/-- The seven operation names of the hook (the keys of `errorsFactory`). -/
inductive OpName where
  | updateUser
  | register
  | login
  | logout
  | changePassword
  | load
  | updateEmail
  deriving DecidableEq, Repr

/-- The per-operation error map (`CustomUseUserErrors`): one slot per
operation, `none` standing for the TypeScript `null`. -/
structure ErrorMap (E : Type) where
  updateUser : Option E
  register : Option E
  login : Option E
  logout : Option E
  changePassword : Option E
  load : Option E
  updateEmail : Option E
  deriving DecidableEq, Repr

/-- `errorsFactory` (source lines 30-38): every slot null. -/
def errorsFactory (E : Type) : ErrorMap E :=
  { updateUser := none, register := none, login := none, logout := none,
    changePassword := none, load := none, updateEmail := none }

/-- Projection of an error map at an operation name. -/
def ErrorMap.slot (m : ErrorMap E) : OpName → Option E
  | OpName.updateUser => m.updateUser
  | OpName.register => m.register
  | OpName.login => m.login
  | OpName.logout => m.logout
  | OpName.changePassword => m.changePassword
  | OpName.load => m.load
  | OpName.updateEmail => m.updateEmail

/-- `errorsFactory` with a single slot overwritten: the shape every
wrapped operation leaves the error map in (all-null reset at entry, then
at most the invoked operation's slot written). -/
def clearedExcept (E : Type) (nm : OpName) (v : Option E) : ErrorMap E :=
  match nm with
  | OpName.updateUser => { errorsFactory E with updateUser := v }
  | OpName.register => { errorsFactory E with register := v }
  | OpName.login => { errorsFactory E with login := v }
  | OpName.logout => { errorsFactory E with logout := v }
  | OpName.changePassword => { errorsFactory E with changePassword := v }
  | OpName.load => { errorsFactory E with load := v }
  | OpName.updateEmail => { errorsFactory E with updateEmail := v }

/-- The shared reactive state of one `useUser` hook instance:
`user` (`sharedRef(null, 'useUser-user')`),
`loading` (`sharedRef(false, 'useUser-loading')`) and
`error` (`sharedRef(errorsFactory(), 'useUser-error')`), source lines 40-43. -/
structure UserState (U E : Type) where
  user : Option U
  loading : Bool
  error : ErrorMap E
  deriving DecidableEq, Repr

/-- The state the three shared refs are created with (source lines 40-43). -/
def initialState (U E : Type) : UserState U E :=
  { user := none, loading := false, error := errorsFactory E }

/-- `isAuthenticated = computed(() => Boolean(user.value))` (line 42). -/
def isAuthenticated (s : UserState U E) : Bool :=
  s.user.isSome

/-- `resetErrorValue` (lines 52-54): replace the whole error map by a
fresh `errorsFactory()`. -/
def resetErrorValue (s : UserState U E) : UserState U E :=
  { s with error := errorsFactory E }

/-- Observable events of one wrapped-operation invocation, in statement
order: Logger calls and writes to the `loading` ref.  Entry-log payloads
other than `changePassword`'s masked object are abstracted away. -/
inductive Event (E M : Type) where
  | debugLog (tag : String)
  | debugChangePasswordLog (tag : String) (maskedCurrent maskedNew : M)
  | resetErrors
  | loadingWrite (b : Bool)
  | errorLog (tag : String) (err : E)
  deriving DecidableEq, Repr

/-- Result of one wrapped-operation invocation: `Except.ok` when the
wrapped promise resolves (carrying the final shared state and the event
trace), `Except.error` would mean the wrapped promise rejects. -/
abbrev OpResult (U E M : Type) :=
  Except E (UserState U E × List (Event E M))

/-- Caller parameter bag of `updateUser`/`updateEmail`:
`{ user: providedUser, customQuery }`. -/
structure UpdateUserParams (P Q : Type) where
  user : P
  customQuery : Option Q
  deriving DecidableEq, Repr

/-- Argument record the wrapper passes to the injected `updateUser` /
`updateEmail` implementation (lines 62 and 162):
`{currentUser: user.value, updatedUserData: providedUser, customQuery}`. -/
structure UpdateUserArgs (U P Q : Type) where
  currentUser : Option U
  updatedUserData : P
  customQuery : Option Q
  deriving DecidableEq, Repr

/-- Caller parameter bag of `register`: `{ user: providedUser, customQuery }`. -/
structure RegisterParams (R Q : Type) where
  user : R
  customQuery : Option Q
  deriving DecidableEq, Repr

/-- Argument record passed to the injected `register` implementation
(line 79): the spread `{...providedUser, customQuery}` is modelled as the
pair of the provided user data and the custom query. -/
structure RegisterArgs (R Q : Type) where
  userData : R
  customQuery : Option Q
  deriving DecidableEq, Repr

/-- The `{ username, password }` object a `login` caller supplies as `user`. -/
structure LoginUser where
  username : String
  password : String
  deriving DecidableEq, Repr

/-- Caller parameter bag of `login`: `{ user: providedUser, customQuery }`. -/
structure LoginParams (Q : Type) where
  user : LoginUser
  customQuery : Option Q
  deriving DecidableEq, Repr

/-- Argument record passed to the injected `logIn` implementation
(line 95): the spread `{...providedUser, customQuery}`. -/
structure LoginArgs (Q : Type) where
  username : String
  password : String
  customQuery : Option Q
  deriving DecidableEq, Repr

/-- Argument record passed to the injected `logOut` implementation
(line 110): `{ currentUser: user.value }`. -/
structure LogoutArgs (U : Type) where
  currentUser : Option U
  deriving DecidableEq, Repr

/-- Caller parameter bag of `changePassword`.  The wrapper reads
`params.currentPassword`, `params.newPassword`, `params.customQuery`
(lines 127-129) and, in its entry log only, `params.current` and
`params.new` (line 120) — two fields absent from the operation's stated
parameter shape, hence modelled as `Option String`. -/
structure ChangePasswordParams (Q : Type) where
  currentPassword : String
  newPassword : String
  customQuery : Option Q
  current : Option String
  «new» : Option String
  deriving DecidableEq, Repr

/-- Argument record passed to the injected `changePassword`
implementation (lines 125-130). -/
structure ChangePasswordArgs (U Q : Type) where
  currentUser : Option U
  currentPassword : String
  newPassword : String
  customQuery : Option Q
  deriving DecidableEq, Repr

/-- Caller parameter bag of `load`: `{customQuery}` (with default
`{customQuery: undefined}`), also the argument record passed to the
injected `load` implementation (line 146). -/
structure LoadParams (Q : Type) where
  customQuery : Option Q
  deriving DecidableEq, Repr

variable {U P R Q E M : Type}

/-- Argument record of the injected `updateUser` implementation, built
from the caller bag and the current `user.value`. -/
def updateUserArgs (p : UpdateUserParams P Q) (u : Option U) :
    UpdateUserArgs U P Q :=
  { currentUser := u, updatedUserData := p.user, customQuery := p.customQuery }

/-- Argument record of the injected `register` implementation. -/
def registerArgs (p : RegisterParams R Q) : RegisterArgs R Q :=
  { userData := p.user, customQuery := p.customQuery }

/-- Argument record of the injected `logIn` implementation. -/
def loginArgs (p : LoginParams Q) : LoginArgs Q :=
  { username := p.user.username, password := p.user.password,
    customQuery := p.customQuery }

/-- Argument record of the injected `logOut` implementation. -/
def logoutArgs (u : Option U) : LogoutArgs U :=
  { currentUser := u }

/-- Argument record of the injected `changePassword` implementation. -/
def changePasswordArgs (p : ChangePasswordParams Q) (u : Option U) :
    ChangePasswordArgs U Q :=
  { currentUser := u, currentPassword := p.currentPassword,
    newPassword := p.newPassword, customQuery := p.customQuery }

/-- Argument record of the injected `updateEmail` implementation. -/
def updateEmailArgs (p : UpdateUserParams P Q) (u : Option U) :
    UpdateUserArgs U P Q :=
  { currentUser := u, updatedUserData := p.user, customQuery := p.customQuery }

/-- Wrapped `updateUser` (source lines 56-70). -/
def updateUser (impl : UpdateUserArgs U P Q → Except E U)
    (p : UpdateUserParams P Q) (s : UserState U E) : OpResult U E M :=
  -- Logger.debug('useUserFactory.updateUser', providedUser); resetErrorValue()
  let s1 := resetErrorValue s
  -- try { loading.value = true
  let s2 := { s1 with loading := true }
  -- user.value = await _factoryParams.updateUser({currentUser, updatedUserData, customQuery})
  match impl (updateUserArgs p s2.user) with
  | Except.ok u =>
      -- error.value.updateUser = null } finally { loading.value = false }
      let s3 := { s2 with user := some u }
      let s4 := { s3 with error := { s3.error with updateUser := none } }
      let s5 := { s4 with loading := false }
      Except.ok (s5,
        [Event.debugLog "useUserFactory.updateUser", Event.resetErrors,
         Event.loadingWrite true, Event.loadingWrite false])
  | Except.error e =>
      -- catch { error.value.updateUser = err; Logger.error } finally { loading.value = false }
      let s3 := { s2 with error := { s2.error with updateUser := some e } }
      let s4 := { s3 with loading := false }
      Except.ok (s4,
        [Event.debugLog "useUserFactory.updateUser", Event.resetErrors,
         Event.loadingWrite true, Event.errorLog "useUser/updateUser" e,
         Event.loadingWrite false])

/-- Wrapped `register` (source lines 72-87).  Note line 79: the result of
the injected implementation is awaited but NOT assigned to `user.value`
("In Vendure the register will return boolean instead of customer so we
cannot save it as user."). -/
def register (impl : RegisterArgs R Q → Except E U)
    (p : RegisterParams R Q) (s : UserState U E) : OpResult U E M :=
  let s1 := resetErrorValue s
  let s2 := { s1 with loading := true }
  -- await _factoryParams.register({...providedUser, customQuery});  (result discarded)
  match impl (registerArgs p) with
  | Except.ok _ =>
      let s3 := { s2 with error := { s2.error with register := none } }
      let s4 := { s3 with loading := false }
      Except.ok (s4,
        [Event.debugLog "useUserFactory.register", Event.resetErrors,
         Event.loadingWrite true, Event.loadingWrite false])
  | Except.error e =>
      let s3 := { s2 with error := { s2.error with register := some e } }
      let s4 := { s3 with loading := false }
      Except.ok (s4,
        [Event.debugLog "useUserFactory.register", Event.resetErrors,
         Event.loadingWrite true, Event.errorLog "useUser/register" e,
         Event.loadingWrite false])

/-- Wrapped `login` (source lines 89-103). -/
def login (impl : LoginArgs Q → Except E U)
    (p : LoginParams Q) (s : UserState U E) : OpResult U E M :=
  let s1 := resetErrorValue s
  let s2 := { s1 with loading := true }
  -- user.value = await _factoryParams.logIn({...providedUser, customQuery})
  match impl (loginArgs p) with
  | Except.ok u =>
      let s3 := { s2 with user := some u }
      let s4 := { s3 with error := { s3.error with login := none } }
      let s5 := { s4 with loading := false }
      Except.ok (s5,
        [Event.debugLog "useUserFactory.login", Event.resetErrors,
         Event.loadingWrite true, Event.loadingWrite false])
  | Except.error e =>
      let s3 := { s2 with error := { s2.error with login := some e } }
      let s4 := { s3 with loading := false }
      Except.ok (s4,
        [Event.debugLog "useUserFactory.login", Event.resetErrors,
         Event.loadingWrite true, Event.errorLog "useUser/login" e,
         Event.loadingWrite false])

/-- Wrapped `logout` (source lines 105-117).  Unlike every other
operation, `logout` has no `finally` block and never writes the
`loading` ref; on success it sets `error.value.logout = null` and then
`user.value = null`. -/
def logout (impl : LogoutArgs U → Except E Unit)
    (s : UserState U E) : OpResult U E M :=
  let s1 := resetErrorValue s
  -- await _factoryParams.logOut({ currentUser: user.value })
  match impl (logoutArgs s1.user) with
  | Except.ok _ =>
      let s2 := { s1 with error := { s1.error with logout := none } }
      let s3 := { s2 with user := none }
      Except.ok (s3,
        [Event.debugLog "useUserFactory.logout", Event.resetErrors])
  | Except.error e =>
      let s2 := { s1 with error := { s1.error with logout := some e } }
      Except.ok (s2,
        [Event.debugLog "useUserFactory.logout", Event.resetErrors,
         Event.errorLog "useUser/logout" e])

/-- Wrapped `changePassword` (source lines 119-138).  The entry log is
`Logger.debug('useUserFactory.changePassword', { currentPassword:
mask(params.current), newPassword: mask(params.new) })` — it masks the
`current` and `new` fields of the parameter bag, not the
`currentPassword`/`newPassword` fields that are passed to the injected
implementation. -/
def changePassword (maskFn : Option String → M)
    (impl : ChangePasswordArgs U Q → Except E U)
    (p : ChangePasswordParams Q) (s : UserState U E) : OpResult U E M :=
  let entry := Event.debugChangePasswordLog "useUserFactory.changePassword"
    (maskFn p.current) (maskFn p.«new»)
  let s1 := resetErrorValue s
  let s2 := { s1 with loading := true }
  match impl (changePasswordArgs p s2.user) with
  | Except.ok u =>
      let s3 := { s2 with user := some u }
      let s4 := { s3 with error := { s3.error with changePassword := none } }
      let s5 := { s4 with loading := false }
      Except.ok (s5,
        [entry, Event.resetErrors, Event.loadingWrite true,
         Event.loadingWrite false])
  | Except.error e =>
      let s3 := { s2 with error := { s2.error with changePassword := some e } }
      let s4 := { s3 with loading := false }
      Except.ok (s4,
        [entry, Event.resetErrors, Event.loadingWrite true,
         Event.errorLog "useUser/changePassword" e, Event.loadingWrite false])

/-- Wrapped `load` (source lines 140-154). -/
def load (impl : LoadParams Q → Except E U)
    (p : LoadParams Q) (s : UserState U E) : OpResult U E M :=
  let s1 := resetErrorValue s
  let s2 := { s1 with loading := true }
  -- user.value = await _factoryParams.load({customQuery})
  match impl p with
  | Except.ok u =>
      let s3 := { s2 with user := some u }
      let s4 := { s3 with error := { s3.error with load := none } }
      let s5 := { s4 with loading := false }
      Except.ok (s5,
        [Event.debugLog "useUserFactory.load", Event.resetErrors,
         Event.loadingWrite true, Event.loadingWrite false])
  | Except.error e =>
      let s3 := { s2 with error := { s2.error with load := some e } }
      let s4 := { s3 with loading := false }
      Except.ok (s4,
        [Event.debugLog "useUserFactory.load", Event.resetErrors,
         Event.loadingWrite true, Event.errorLog "useUser/load" e,
         Event.loadingWrite false])

/-- Wrapped `updateEmail` (source lines 156-170).  The injected
implementation returns void and `user.value` is never assigned. -/
def updateEmail (impl : UpdateUserArgs U P Q → Except E Unit)
    (p : UpdateUserParams P Q) (s : UserState U E) : OpResult U E M :=
  let s1 := resetErrorValue s
  let s2 := { s1 with loading := true }
  match impl (updateEmailArgs p s2.user) with
  | Except.ok _ =>
      let s3 := { s2 with error := { s2.error with updateEmail := none } }
      let s4 := { s3 with loading := false }
      Except.ok (s4,
        [Event.debugLog "useUserFactory.updateEmail", Event.resetErrors,
         Event.loadingWrite true, Event.loadingWrite false])
  | Except.error e =>
      let s3 := { s2 with error := { s2.error with updateEmail := some e } }
      let s4 := { s3 with loading := false }
      Except.ok (s4,
        [Event.debugLog "useUserFactory.updateEmail", Event.resetErrors,
         Event.loadingWrite true, Event.errorLog "useUser/updateEmail" e,
         Event.loadingWrite false])

/-- `setUser` (source lines 47-50): a member of the returned hook object
that assigns `user.value = newUser` directly and logs — with no error-map
reset, no loading management and no error capture. -/
def setUser (newUser : U) (s : UserState U E) :
    UserState U E × List (Event E M) :=
  ({ s with user := some newUser },
   [Event.debugLog "useUserFactory.setUser"])

/-- The keys of the object returned by `useUser` (source lines 172-185). -/
def hookKeys : List String :=
  ["setUser", "user", "updateUser", "register", "login", "logout",
   "isAuthenticated", "changePassword", "updateEmail", "load",
   "loading", "error"]

/-- One invocation of one wrapped operation of the hook: the operation
name together with the injected implementation and the caller-supplied
parameter bag for that operation. -/
inductive OpCall (U P R Q E M : Type) where
  | updateUser (impl : UpdateUserArgs U P Q → Except E U)
      (p : UpdateUserParams P Q)
  | register (impl : RegisterArgs R Q → Except E U)
      (p : RegisterParams R Q)
  | login (impl : LoginArgs Q → Except E U) (p : LoginParams Q)
  | logout (impl : LogoutArgs U → Except E Unit)
  | changePassword (maskFn : Option String → M)
      (impl : ChangePasswordArgs U Q → Except E U)
      (p : ChangePasswordParams Q)
  | load (impl : LoadParams Q → Except E U) (p : LoadParams Q)
  | updateEmail (impl : UpdateUserArgs U P Q → Except E Unit)
      (p : UpdateUserParams P Q)

/-- The operation name of a call. -/
def OpCall.name : OpCall U P R Q E M → OpName
  | OpCall.updateUser _ _ => OpName.updateUser
  | OpCall.register _ _ => OpName.register
  | OpCall.login _ _ => OpName.login
  | OpCall.logout _ => OpName.logout
  | OpCall.changePassword _ _ _ => OpName.changePassword
  | OpCall.load _ _ => OpName.load
  | OpCall.updateEmail _ _ => OpName.updateEmail

/-- Run one wrapped-operation invocation against a starting shared state. -/
def invoke (c : OpCall U P R Q E M) (s : UserState U E) :
    OpResult U E M :=
  match c with
  | OpCall.updateUser impl p => updateUser impl p s
  | OpCall.register impl p => register impl p s
  | OpCall.login impl p => login impl p s
  | OpCall.logout impl => logout impl s
  | OpCall.changePassword maskFn impl p => changePassword maskFn impl p s
  | OpCall.load impl p => load impl p s
  | OpCall.updateEmail impl p => updateEmail impl p s

/-- The error, if any, that the injected implementation of a call throws
when invoked from starting state `s` (the implementations are
deterministic functions of their argument record, which for the
operations that read `user.value` is built from `s.user`). -/
def thrownOf (c : OpCall U P R Q E M) (s : UserState U E) :
    Option E :=
  match c with
  | OpCall.updateUser impl p =>
      match impl (updateUserArgs p s.user) with
      | Except.ok _ => none
      | Except.error e => some e
  | OpCall.register impl p =>
      match impl (registerArgs p) with
      | Except.ok _ => none
      | Except.error e => some e
  | OpCall.login impl p =>
      match impl (loginArgs p) with
      | Except.ok _ => none
      | Except.error e => some e
  | OpCall.logout impl =>
      match impl (logoutArgs s.user) with
      | Except.ok _ => none
      | Except.error e => some e
  | OpCall.changePassword _ impl p =>
      match impl (changePasswordArgs p s.user) with
      | Except.ok _ => none
      | Except.error e => some e
  | OpCall.load impl p =>
      match impl p with
      | Except.ok _ => none
      | Except.error e => some e
  | OpCall.updateEmail impl p =>
      match impl (updateEmailArgs p s.user) with
      | Except.ok _ => none
      | Except.error e => some e

/-- Whether the wrapped promise resolves (is fulfilled, not rejected). -/
def resolves : OpResult U E M → Bool
  | Except.ok _ => true
  | Except.error _ => false

/-- Final `user.value` of a resolved invocation. -/
def okUser : OpResult U E M → Option (Option U)
  | Except.ok (s, _) => some s.user
  | Except.error _ => none

/-- Final `loading.value` of a resolved invocation. -/
def okLoading : OpResult U E M → Option Bool
  | Except.ok (s, _) => some s.loading
  | Except.error _ => none

/-- Final error map of a resolved invocation. -/
def okError : OpResult U E M → Option (ErrorMap E)
  | Except.ok (s, _) => some s.error
  | Except.error _ => none

/-- Event trace of a resolved invocation (empty if it rejected). -/
def okEvents : OpResult U E M → List (Event E M)
  | Except.ok (_, evs) => evs
  | Except.error _ => []

/-- Every wrapped-operation invocation resolves: each operation body is a
`try`/`catch` whose `catch` absorbs the thrown error, so the wrapped
promise is fulfilled on every path. -/
theorem invoke_resolves (c : OpCall U P R Q E M)
    (s : UserState U E) : resolves (invoke c s) = true := by
  cases c <;>
    simp only [invoke, updateUser, register, login, logout, changePassword,
      load, updateEmail] <;>
    split <;> rfl

/-- Final error map of any invocation: all slots reset to null at entry,
then the invoked operation's slot holds exactly what its implementation
threw (null on success). -/
theorem invoke_error_eq (c : OpCall U P R Q E M)
    (s : UserState U E) :
    okError (invoke c s) =
      some (clearedExcept E (OpCall.name c) (thrownOf c s)) := by
  cases c with
  | updateUser impl p =>
      cases h : impl (updateUserArgs p s.user) <;>
        simp [invoke, updateUser, thrownOf, OpCall.name, okError,
          clearedExcept, resetErrorValue, errorsFactory, h]
  | register impl p =>
      cases h : impl (registerArgs p) <;>
        simp [invoke, register, thrownOf, OpCall.name, okError,
          clearedExcept, resetErrorValue, errorsFactory, h]
  | login impl p =>
      cases h : impl (loginArgs p) <;>
        simp [invoke, login, thrownOf, OpCall.name, okError,
          clearedExcept, resetErrorValue, errorsFactory, h]
  | logout impl =>
      cases h : impl (logoutArgs s.user) <;>
        simp [invoke, logout, thrownOf, OpCall.name, okError,
          clearedExcept, resetErrorValue, errorsFactory, h]
  | changePassword maskFn impl p =>
      cases h : impl (changePasswordArgs p s.user) <;>
        simp [invoke, changePassword, thrownOf, OpCall.name, okError,
          clearedExcept, resetErrorValue, errorsFactory, h]
  | load impl p =>
      cases h : impl p <;>
        simp [invoke, load, thrownOf, OpCall.name, okError,
          clearedExcept, resetErrorValue, errorsFactory, h]
  | updateEmail impl p =>
      cases h : impl (updateEmailArgs p s.user) <;>
        simp [invoke, updateEmail, thrownOf, OpCall.name, okError,
          clearedExcept, resetErrorValue, errorsFactory, h]

/-- Final loading flag of any invocation: false for every operation
except `logout`, which never writes the flag and leaves it at its
starting value. -/
theorem invoke_loading_eq (c : OpCall U P R Q E M)
    (s : UserState U E) :
    okLoading (invoke c s) =
      some (if OpCall.name c = OpName.logout then s.loading else false) := by
  cases c <;>
    simp only [invoke, updateUser, register, login, logout, changePassword,
      load, updateEmail, OpCall.name] <;>
    split <;> simp [okLoading, resetErrorValue]

/-- If the injected implementation throws, the shared user value is
unchanged: every assignment to `user.value` sits after the `await` in the
`try` block (or, for `logout`, later in the `try` block), so the throw
skips it. -/
theorem invoke_user_of_thrown (c : OpCall U P R Q E M)
    (s : UserState U E) (e : E) (h : thrownOf c s = some e) :
    okUser (invoke c s) = some s.user := by
  cases c with
  | updateUser impl p =>
      cases hi : impl (updateUserArgs p s.user) <;>
        simp [thrownOf, hi] at h <;>
        simp [invoke, updateUser, okUser, resetErrorValue, hi]
  | register impl p =>
      cases hi : impl (registerArgs p) <;>
        simp [thrownOf, hi] at h <;>
        simp [invoke, register, okUser, resetErrorValue, hi]
  | login impl p =>
      cases hi : impl (loginArgs p) <;>
        simp [thrownOf, hi] at h <;>
        simp [invoke, login, okUser, resetErrorValue, hi]
  | logout impl =>
      cases hi : impl (logoutArgs s.user) <;>
        simp [thrownOf, hi] at h <;>
        simp [invoke, logout, okUser, resetErrorValue, hi]
  | changePassword maskFn impl p =>
      cases hi : impl (changePasswordArgs p s.user) <;>
        simp [thrownOf, hi] at h <;>
        simp [invoke, changePassword, okUser, resetErrorValue, hi]
  | load impl p =>
      cases hi : impl p <;>
        simp [thrownOf, hi] at h <;>
        simp [invoke, load, okUser, resetErrorValue, hi]
  | updateEmail impl p =>
      cases hi : impl (updateEmailArgs p s.user) <;>
        simp [thrownOf, hi] at h <;>
        simp [invoke, updateEmail, okUser, resetErrorValue, hi]

/-- The second trace event of every invocation is the error-map reset:
each operation logs its entry and then immediately calls
`resetErrorValue()` before anything else. -/
theorem invoke_resets_first (c : OpCall U P R Q E M)
    (s : UserState U E) :
    (okEvents (invoke c s))[1]? = some Event.resetErrors := by
  cases c <;>
    simp only [invoke, updateUser, register, login, logout, changePassword,
      load, updateEmail] <;>
    split <;> rfl

/-- For every operation except `logout`, the last trace event is the
`finally` block's `loading.value = false` write, on the success path and
the failure path alike. -/
theorem invoke_finally_last (c : OpCall U P R Q E M)
    (s : UserState U E) (h : OpCall.name c ≠ OpName.logout) :
    (okEvents (invoke c s)).getLast? = some (Event.loadingWrite false) := by
  cases c <;>
    first
      | exact absurd rfl h
      | (simp only [invoke, updateUser, register, login, changePassword,
          load, updateEmail] <;> split <;> rfl)

/-- Projecting `clearedExcept` at the overwritten slot returns the
written value. -/
theorem ErrorMap.slot_clearedExcept (nm : OpName) (v : Option E) :
    ErrorMap.slot (clearedExcept E nm v) nm = v := by
  cases nm <;> rfl

/-- Overwriting a slot of the all-null map with null is the all-null map. -/
theorem clearedExcept_none (nm : OpName) :
    clearedExcept E nm none = errorsFactory E := by
  cases nm <;> rfl

/-- The first trace event of a `changePassword` invocation is its entry
debug log, which carries the masked `current` and `new` fields of the
parameter bag. -/
theorem changePassword_entry (maskFn : Option String → M)
    (impl : ChangePasswordArgs U Q → Except E U)
    (p : ChangePasswordParams Q) (s : UserState U E) :
    (okEvents (changePassword maskFn impl p s))[0]? =
      some (Event.debugChangePasswordLog "useUserFactory.changePassword"
        (maskFn p.current) (maskFn p.«new»)) := by
  cases hi : impl (changePasswordArgs p s.user) <;>
    simp [changePassword, okEvents, resetErrorValue, hi]

/-- C1 counterexample: a successful `register` invocation does not set
the shared user value to the implementation's returned value.  With the
user ref holding `some 5` and an implementation resolving to `7`, the
final user value is still `some 5`, not `some 7` (source line 79 awaits
the result without assigning it). -/
theorem c1_counterexample :
    okUser (register (M := Unit) (Q := Nat) (E := Nat)
        (fun _ => Except.ok (7 : Nat))
        { user := (0 : Nat), customQuery := none }
        { user := some 5, loading := false, error := errorsFactory Nat }) =
      some (some 5) ∧
    (some (some (5 : Nat)) : Option (Option Nat)) ≠ some (some 7) := by
  decide

/-- C1 (amended): when the injected implementation resolves successfully,
`login`, `load`, `updateUser` and `changePassword` set the shared user
value to the implementation's returned value; `register` awaits the
implementation but discards its result, leaving the shared user value
unchanged. -/
theorem c1_success_user_assignment :
    (∀ (impl : LoginArgs Q → Except E U) (p : LoginParams Q)
        (s : UserState U E) (u : U),
        impl (loginArgs p) = Except.ok u →
        okUser (login (M := M) impl p s) = some (some u)) ∧
    (∀ (impl : LoadParams Q → Except E U) (p : LoadParams Q)
        (s : UserState U E) (u : U),
        impl p = Except.ok u →
        okUser (load (M := M) impl p s) = some (some u)) ∧
    (∀ (impl : UpdateUserArgs U P Q → Except E U)
        (p : UpdateUserParams P Q) (s : UserState U E) (u : U),
        impl (updateUserArgs p s.user) = Except.ok u →
        okUser (updateUser (M := M) impl p s) = some (some u)) ∧
    (∀ (maskFn : Option String → M)
        (impl : ChangePasswordArgs U Q → Except E U)
        (p : ChangePasswordParams Q) (s : UserState U E) (u : U),
        impl (changePasswordArgs p s.user) = Except.ok u →
        okUser (changePassword maskFn impl p s) = some (some u)) ∧
    (∀ (impl : RegisterArgs R Q → Except E U) (p : RegisterParams R Q)
        (s : UserState U E) (u : U),
        impl (registerArgs p) = Except.ok u →
        okUser (register (M := M) impl p s) = some s.user) := by
  refine ⟨?_, ?_, ?_, ?_, ?_⟩ <;>
    intros <;>
    rename_i h <;>
    simp [login, load, updateUser, changePassword, register, okUser,
      resetErrorValue, h]

/-- Witness for C1: a concrete successful `login` ends with the shared
user value equal to the implementation's result. -/
theorem c1_success_user_assignment_witness :
    okUser (login (M := Unit) (E := Nat) (Q := Nat)
        (fun _ => Except.ok (7 : Nat))
        { user := { username := "a", password := "b" }, customQuery := none }
        (initialState Nat Nat)) = some (some 7) :=
  (c1_success_user_assignment (U := Nat) (P := Nat) (R := Nat) (Q := Nat)
    (E := Nat) (M := Unit)).1 _ _ _ 7 rfl

/-- C2 counterexample: the hook object returned by `useUser` contains
`setUser`, and calling it replaces the shared user value while leaving a
non-null error map untouched — no error-map reset, no loading
management — so external code can change the shared user value without
going through a wrapped operation. -/
theorem c2_counterexample :
    "setUser" ∈ hookKeys ∧
    (setUser (M := Unit) (7 : Nat)
        { user := some 5, loading := false,
          error := { errorsFactory Nat with login := some 3 } }).1.user =
      some 7 ∧
    (setUser (M := Unit) (7 : Nat)
        { user := some 5, loading := false,
          error := { errorsFactory Nat with login := some 3 } }).1.error =
      { errorsFactory Nat with login := some 3 } ∧
    ({ errorsFactory Nat with login := some (3 : Nat) } : ErrorMap Nat) ≠
      errorsFactory Nat := by
  decide

/-- C2 (amended): `user`, `loading` and `error` are exposed through
computed read-only projections and every wrapped operation performs the
full bookkeeping (its final error map is the all-null reset with at most
the invoked slot written), but the hook object also exposes `setUser`,
which directly replaces the shared user value while leaving the loading
flag and the error map exactly as they were, so external code can change
the shared user value without going through a wrapped operation. -/
theorem c2_mutation_surface :
    "setUser" ∈ hookKeys ∧
    (∀ (u : U) (s : UserState U E),
        (setUser (M := M) u s).1.user = some u ∧
        (setUser (M := M) u s).1.error = s.error ∧
        (setUser (M := M) u s).1.loading = s.loading) ∧
    (∀ (c : OpCall U P R Q E M) (s : UserState U E),
        okError (invoke c s) =
          some (clearedExcept E (OpCall.name c) (thrownOf c s))) := by
  refine ⟨by decide, ?_, fun c s => invoke_error_eq c s⟩
  intro u s
  exact ⟨rfl, rfl, rfl⟩

/-- C3 counterexample: `logout` has no `finally` block and never writes
the loading flag — a completed (resolved) `logout` invocation that
started with `loading = true` ends with `loading` still `true`. -/
theorem c3_counterexample :
    resolves (logout (M := Unit) (fun _ => Except.error (3 : Nat))
        { user := some (5 : Nat), loading := true,
          error := errorsFactory Nat }) = true ∧
    okLoading (logout (M := Unit) (fun _ => Except.error (3 : Nat))
        { user := some (5 : Nat), loading := true,
          error := errorsFactory Nat }) = some true := by
  decide

/-- C3 (amended): for `load`, `register`, `login`, `changePassword`,
`updateUser` and `updateEmail`, every completion — implementation success
or thrown error — ends with `loading = false`, and the `finally` block's
`loading.value = false` write is the last action of the invocation;
`logout` never writes the loading flag at all and leaves it at its
starting value. -/
theorem c3_finally_resets_loading :
    (∀ (c : OpCall U P R Q E M) (s : UserState U E),
        OpCall.name c ≠ OpName.logout →
        okLoading (invoke c s) = some false ∧
        (okEvents (invoke c s)).getLast? = some (Event.loadingWrite false)) ∧
    (∀ (impl : LogoutArgs U → Except E Unit) (s : UserState U E),
        okLoading (logout (M := M) impl s) = some s.loading ∧
        Event.loadingWrite true ∉ okEvents (logout (M := M) impl s) ∧
        Event.loadingWrite false ∉ okEvents (logout (M := M) impl s)) := by
  constructor
  · intro c s h
    have hl := invoke_loading_eq c s
    rw [if_neg h] at hl
    exact ⟨hl, invoke_finally_last c s h⟩
  · intro impl s
    cases hi : impl (logoutArgs s.user) <;>
      simp [logout, okLoading, okEvents, resetErrorValue, hi]

/-- Witness for C3: a concrete `load` whose implementation throws still
ends with `loading = false`. -/
theorem c3_finally_resets_loading_witness :
    okLoading (invoke
        (OpCall.load (U := Nat) (P := Nat) (R := Nat) (M := Unit)
          (fun _ => Except.error (3 : Nat))
          { customQuery := (none : Option Nat) })
        { user := none, loading := true, error := errorsFactory Nat }) =
      some false :=
  (c3_finally_resets_loading.1 _ _ (by decide)).1

/-- C4: every wrapped operation's promise resolves — the `catch`
translation absorbs the implementation's thrown error into the invoked
operation's error-map slot and never re-throws it to the caller. -/
theorem c4_absorbs_failures :
    (∀ (c : OpCall U P R Q E M) (s : UserState U E),
        resolves (invoke c s) = true) ∧
    (∀ (c : OpCall U P R Q E M) (s : UserState U E) (e : E),
        thrownOf c s = some e →
        (okError (invoke c s)).map
          (fun m => ErrorMap.slot m (OpCall.name c)) = some (some e)) := by
  refine ⟨fun c s => invoke_resolves c s, ?_⟩
  intro c s e h
  rw [invoke_error_eq, h]
  simp [ErrorMap.slot_clearedExcept]

/-- Witness for C4: a concrete failing `login` resolves with
`errorMap.login` equal to the thrown error. -/
theorem c4_absorbs_failures_witness :
    (okError (invoke
        (OpCall.login (U := Nat) (P := Nat) (R := Nat) (M := Unit)
          (fun _ => Except.error (9 : Nat))
          { user := { username := "a", password := "b" },
            customQuery := (none : Option Nat) })
        (initialState Nat Nat))).map
      (fun m => ErrorMap.slot m OpName.login) = some (some 9) :=
  (c4_absorbs_failures (U := Nat) (P := Nat) (R := Nat) (Q := Nat)
      (E := Nat) (M := Unit)).2
    (OpCall.login (fun _ => Except.error (9 : Nat))
      { user := { username := "a", password := "b" },
        customQuery := (none : Option Nat) })
    (initialState Nat Nat) 9 rfl

/-- C5 counterexample: a failing `logout` that started with
`loading = true` settles with `loading` still `true`, not `false` —
`logout` never writes the loading flag. -/
theorem c5_counterexample :
    thrownOf
        (OpCall.logout (U := Nat) (P := Nat) (R := Nat) (Q := Nat)
          (M := Unit) (fun _ => Except.error (4 : Nat)))
        { user := some 6, loading := true, error := errorsFactory Nat } =
      some 4 ∧
    okLoading (invoke
        (OpCall.logout (U := Nat) (P := Nat) (R := Nat) (Q := Nat)
          (M := Unit) (fun _ => Except.error (4 : Nat)))
        { user := some 6, loading := true, error := errorsFactory Nat }) =
      some true ∧
    (some true : Option Bool) ≠ some false := by
  decide

/-- C5 (amended): if the injected implementation throws, the invocation
settles with the invoked operation's error slot equal to the thrown error
(and every other slot null) and the shared user value unchanged; the
loading flag is `false` afterwards for every operation except `logout`,
which leaves it at its starting value. -/
theorem c5_failure_state :
    ∀ (c : OpCall U P R Q E M) (s : UserState U E) (e : E),
      thrownOf c s = some e →
      okUser (invoke c s) = some s.user ∧
      okError (invoke c s) = some (clearedExcept E (OpCall.name c) (some e)) ∧
      okLoading (invoke c s) =
        some (if OpCall.name c = OpName.logout then s.loading else false) := by
  intro c s e h
  refine ⟨invoke_user_of_thrown c s e h, ?_, invoke_loading_eq c s⟩
  rw [invoke_error_eq, h]

/-- Witness for C5: a concrete failing `updateUser` leaves the user
unchanged, records the error, and resets loading. -/
theorem c5_failure_state_witness :
    okUser (invoke
        (OpCall.updateUser (R := Nat) (M := Unit)
          (fun _ => Except.error (4 : Nat))
          { user := (1 : Nat), customQuery := (none : Option Nat) })
        { user := some (5 : Nat), loading := false,
          error := errorsFactory Nat }) = some (some 5) ∧
    okError (invoke
        (OpCall.updateUser (R := Nat) (M := Unit)
          (fun _ => Except.error (4 : Nat))
          { user := (1 : Nat), customQuery := (none : Option Nat) })
        { user := some (5 : Nat), loading := false,
          error := errorsFactory Nat }) =
      some (clearedExcept Nat OpName.updateUser (some 4)) ∧
    okLoading (invoke
        (OpCall.updateUser (R := Nat) (M := Unit)
          (fun _ => Except.error (4 : Nat))
          { user := (1 : Nat), customQuery := (none : Option Nat) })
        { user := some (5 : Nat), loading := false,
          error := errorsFactory Nat }) = some false :=
  c5_failure_state
    (OpCall.updateUser (R := Nat) (M := Unit)
      (fun _ => Except.error (4 : Nat))
      { user := (1 : Nat), customQuery := (none : Option Nat) })
    { user := some (5 : Nat), loading := false, error := errorsFactory Nat }
    4 rfl

/-- C6 counterexample: a successful `logout` that started with
`loading = true` ends with `loading` still `true`, so a successful
invocation does not always end with `loading = false`. -/
theorem c6_counterexample :
    thrownOf
        (OpCall.logout (U := Nat) (P := Nat) (R := Nat) (Q := Nat)
          (E := Nat) (M := Unit) (fun _ => Except.ok ()))
        { user := some 2, loading := true, error := errorsFactory Nat } =
      none ∧
    okLoading (invoke
        (OpCall.logout (U := Nat) (P := Nat) (R := Nat) (Q := Nat)
          (E := Nat) (M := Unit) (fun _ => Except.ok ()))
        { user := some 2, loading := true, error := errorsFactory Nat }) =
      some true := by
  decide

/-- C6 (amended): every invocation resets the entire error map to
all-null immediately after its entry log (before anything else), and a
successful invocation ends with every error slot null — the invoked
operation's set explicitly, the others by the start-of-invocation
reset — and with `loading = false` for every operation except `logout`,
which leaves the loading flag at its starting value. -/
theorem c6_reset_and_success_state :
    ∀ (c : OpCall U P R Q E M) (s : UserState U E),
      (okEvents (invoke c s))[1]? = some Event.resetErrors ∧
      (thrownOf c s = none →
        okError (invoke c s) = some (errorsFactory E) ∧
        okLoading (invoke c s) =
          some (if OpCall.name c = OpName.logout then s.loading else false)) := by
  intro c s
  refine ⟨invoke_resets_first c s, fun h => ⟨?_, invoke_loading_eq c s⟩⟩
  rw [invoke_error_eq, h, clearedExcept_none]

/-- Witness for C6: a concrete successful `register` ends with the
all-null error map and `loading = false`. -/
theorem c6_reset_and_success_state_witness :
    okError (invoke
        (OpCall.register (U := Nat) (P := Nat) (M := Unit)
          (fun _ => Except.ok (7 : Nat))
          { user := (0 : Nat), customQuery := (none : Option Nat) })
        { user := none, loading := false, error := errorsFactory Nat }) =
      some (errorsFactory Nat) ∧
    okLoading (invoke
        (OpCall.register (U := Nat) (P := Nat) (M := Unit)
          (fun _ => Except.ok (7 : Nat))
          { user := (0 : Nat), customQuery := (none : Option Nat) })
        { user := none, loading := false, error := errorsFactory Nat }) =
      some false :=
  ((c6_reset_and_success_state
      (OpCall.register (U := Nat) (P := Nat) (M := Unit)
        (fun _ => Except.ok (7 : Nat))
        { user := (0 : Nat), customQuery := (none : Option Nat) })
      { user := none, loading := false, error := errorsFactory Nat }).2
    rfl)

/-- C7: for every prior shared state, a `logout` whose injected `logOut`
implementation succeeds sets the shared user value to null and
`errorMap.logout` to null, and `logout` never writes `true` to the
loading flag at any point of its execution (its trace contains no
loading write and the flag keeps its starting value). -/
theorem c7_logout_success :
    ∀ (impl : LogoutArgs U → Except E Unit) (s : UserState U E),
      impl (logoutArgs s.user) = Except.ok () →
      okUser (logout (M := M) impl s) = some none ∧
      (okError (logout (M := M) impl s)).map (fun m => m.logout) =
        some none ∧
      okLoading (logout (M := M) impl s) = some s.loading ∧
      Event.loadingWrite true ∉ okEvents (logout (M := M) impl s) := by
  intro impl s h
  simp [logout, okUser, okError, okLoading, okEvents, resetErrorValue, h]

/-- Witness for C7: a concrete successful `logout` from a logged-in
state clears the user, leaves `errorMap.logout` null and never raises
the loading flag. -/
theorem c7_logout_success_witness :
    okUser (logout (M := Unit)
        (fun _ => Except.ok ())
        { user := some (5 : Nat), loading := false,
          error := errorsFactory Nat }) = some none ∧
    (okError (logout (M := Unit)
        (fun _ => Except.ok ())
        { user := some (5 : Nat), loading := false,
          error := errorsFactory Nat })).map (fun m => m.logout) =
      some none ∧
    okLoading (logout (M := Unit)
        (fun _ => Except.ok ())
        { user := some (5 : Nat), loading := false,
          error := errorsFactory Nat }) = some false ∧
    Event.loadingWrite true ∉ okEvents (logout (M := Unit)
        (fun _ => Except.ok ())
        { user := some (5 : Nat), loading := false,
          error := errorsFactory Nat }) :=
  c7_logout_success (E := Nat)
    (fun _ => Except.ok ())
    { user := some (5 : Nat), loading := false, error := errorsFactory Nat }
    rfl

/-- C8: a `register` whose injected implementation succeeds leaves the
shared user value exactly as it was before the call (the returned value
is not assigned, source line 79) and leaves `errorMap.register` null. -/
theorem c8_register_success :
    ∀ (impl : RegisterArgs R Q → Except E U) (p : RegisterParams R Q)
      (s : UserState U E) (u : U),
      impl (registerArgs p) = Except.ok u →
      okUser (register (M := M) impl p s) = some s.user ∧
      (okError (register (M := M) impl p s)).map (fun m => m.register) =
        some none := by
  intro impl p s u h
  simp [register, okUser, okError, resetErrorValue, h]

/-- Witness for C8: a concrete successful `register` from a state with a
logged-in user keeps that user and a null `errorMap.register`. -/
theorem c8_register_success_witness :
    okUser (register (M := Unit)
        (fun _ => Except.ok (7 : Nat))
        { user := (0 : Nat), customQuery := (none : Option Nat) }
        { user := some (5 : Nat), loading := false,
          error := errorsFactory Nat }) = some (some 5) ∧
    (okError (register (M := Unit)
        (fun _ => Except.ok (7 : Nat))
        { user := (0 : Nat), customQuery := (none : Option Nat) }
        { user := some (5 : Nat), loading := false,
          error := errorsFactory Nat })).map (fun m => m.register) =
      some none :=
  c8_register_success
    (fun _ => Except.ok (7 : Nat))
    { user := (0 : Nat), customQuery := (none : Option Nat) }
    { user := some (5 : Nat), loading := false, error := errorsFactory Nat }
    7 rfl

/-- C9 counterexample: a successful `updateEmail` does NOT change only
`errorMap.updateEmail` and the loading flag — the start-of-invocation
reset clears every other error slot too.  Starting with
`errorMap.login = some 3`, after a successful `updateEmail` the `login`
slot is null, though `login` is neither `updateEmail` nor the loading
flag. -/
theorem c9_counterexample :
    okUser (updateEmail (M := Unit)
        (fun _ => Except.ok ())
        { user := (1 : Nat), customQuery := (none : Option Nat) }
        { user := some (5 : Nat), loading := false,
          error := { errorsFactory Nat with login := some 3 } }) =
      some (some 5) ∧
    (okError (updateEmail (M := Unit)
        (fun _ => Except.ok ())
        { user := (1 : Nat), customQuery := (none : Option Nat) }
        { user := some (5 : Nat), loading := false,
          error := { errorsFactory Nat with login := some 3 } })).map
      (fun m => m.login) = some none ∧
    ({ errorsFactory Nat with login := some (3 : Nat) } : ErrorMap Nat).login =
      some 3 ∧
    (some (3 : Nat) : Option Nat) ≠ none ∧
    OpName.login ≠ OpName.updateEmail := by
  decide

/-- C9 (amended): a successful `updateEmail` leaves the shared user
value unchanged and returns the loading flag to false; its error-map
effect is the full start-of-invocation reset — every slot ends null,
`updateEmail`'s set explicitly on success and the others cleared by the
reset. -/
theorem c9_updateEmail_success_frame :
    ∀ (impl : UpdateUserArgs U P Q → Except E Unit)
      (p : UpdateUserParams P Q) (s : UserState U E),
      impl (updateEmailArgs p s.user) = Except.ok () →
      okUser (updateEmail (M := M) impl p s) = some s.user ∧
      okLoading (updateEmail (M := M) impl p s) = some false ∧
      okError (updateEmail (M := M) impl p s) = some (errorsFactory E) := by
  intro impl p s h
  simp [updateEmail, okUser, okLoading, okError, resetErrorValue,
    errorsFactory, h]

/-- Witness for C9 (amended): a concrete successful `updateEmail` keeps
the user, resets loading, and leaves the all-null error map. -/
theorem c9_updateEmail_success_frame_witness :
    okUser (updateEmail (M := Unit)
        (fun _ => Except.ok ())
        { user := (2 : Nat), customQuery := (none : Option Nat) }
        { user := some (9 : Nat), loading := true,
          error := errorsFactory Nat }) = some (some 9) ∧
    okLoading (updateEmail (M := Unit)
        (fun _ => Except.ok ())
        { user := (2 : Nat), customQuery := (none : Option Nat) }
        { user := some (9 : Nat), loading := true,
          error := errorsFactory Nat }) = some false ∧
    okError (updateEmail (M := Unit)
        (fun _ => Except.ok ())
        { user := (2 : Nat), customQuery := (none : Option Nat) }
        { user := some (9 : Nat), loading := true,
          error := errorsFactory Nat }) = some (errorsFactory Nat) :=
  c9_updateEmail_success_frame (E := Nat)
    (fun _ => Except.ok ())
    { user := (2 : Nat), customQuery := (none : Option Nat) }
    { user := some (9 : Nat), loading := true, error := errorsFactory Nat }
    rfl

/-- C10: the entry debug log of `changePassword` masks the `current` and
`new` fields of the parameter bag — fields the operation never otherwise
reads — so two invocations whose parameter bags differ only in
`currentPassword` and `newPassword` produce identical entry-log
arguments, while the injected implementation receives exactly
`currentPassword` and `newPassword`; the plaintext passwords never flow
into the entry log. -/
theorem c10_changePassword_log_masking :
    ∀ (maskFn : Option String → M)
      (impl : ChangePasswordArgs U Q → Except E U) (s : UserState U E)
      (q : Option Q) (cur nw : Option String) (cp1 np1 cp2 np2 : String),
      (okEvents (changePassword maskFn impl
          { currentPassword := cp1, newPassword := np1, customQuery := q,
            current := cur, «new» := nw } s))[0]? =
        (okEvents (changePassword maskFn impl
          { currentPassword := cp2, newPassword := np2, customQuery := q,
            current := cur, «new» := nw } s))[0]? ∧
      (okEvents (changePassword maskFn impl
          { currentPassword := cp1, newPassword := np1, customQuery := q,
            current := cur, «new» := nw } s))[0]? =
        some (Event.debugChangePasswordLog "useUserFactory.changePassword"
          (maskFn cur) (maskFn nw)) ∧
      changePasswordArgs (U := U)
          { currentPassword := cp1, newPassword := np1, customQuery := q,
            current := cur, «new» := nw } s.user =
        { currentUser := s.user, currentPassword := cp1, newPassword := np1,
          customQuery := q } := by
  intro maskFn impl s q cur nw cp1 np1 cp2 np2
  refine ⟨?_, ?_, rfl⟩
  · rw [changePassword_entry, changePassword_entry]
  · rw [changePassword_entry]

end UseUserFactory
